import Mathlib

/-!
# Verification of the giji GitHub-to-Jira import pipeline

Shallow embedding of the core decision logic of the `giji` repository
(`bug_postgres.py`, `demand_postgres.py`, `bulk_import.py`,
`scripts/bug_postgres.py`, `scripts/demand_postgres.py`,
`config/connections.py`) together with proofs about the embedded
definitions.  Python strings are modelled as `String` / `List Char`
(Python slicing and iteration are by code point, as are `List Char`
operations), Python dicts with a fixed key set as structures of
`Option`-valued fields, raised exceptions as `Except`, and the remote
systems (Jira search / create, GitHub pages) as explicit oracle
functions passed in as parameters.
-/

namespace Giji

/-! ## Basic string machinery (ASCII-level models of the Python primitives) -/

/-- ASCII whitespace as matched by Python's `\s` and by `str.strip` on
ASCII input: space, tab, newline, carriage return, vertical tab, form feed. -/
def isPyWs (c : Char) : Bool :=
  c = ' ' || c = '\t' || c = '\n' || c = '\r' || c = '\x0b' || c = '\x0c'

/-- `startsWithChars p l` holds when `p` is an initial segment of `l`
(the model of an anchored literal match). -/
def startsWithChars : List Char → List Char → Bool
  | [], _ => true
  | _ :: _, [] => false
  | p :: ps, c :: cs => p = c && startsWithChars ps cs

/-- Substring containment, the model of Python's `needle in haystack`. -/
def containsSub (needle : List Char) : List Char → Bool
  | [] => startsWithChars needle []
  | c :: cs => startsWithChars needle (c :: cs) || containsSub needle cs

/-- Python `str.lower`, ASCII case folding per character. -/
def strLower (s : String) : String := ⟨s.data.map Char.toLower⟩

/-- Python `str.upper`, ASCII case folding per character. -/
def strUpper (s : String) : String := ⟨s.data.map Char.toUpper⟩

/-- Python `str.strip()` on ASCII input: drop leading and trailing whitespace. -/
def pyStrip (l : List Char) : List Char :=
  ((l.dropWhile isPyWs).reverse.dropWhile isPyWs).reverse

/-- String wrapper for `containsSub` (Python `sub in s`). -/
def strContains (s sub : String) : Bool := containsSub sub.data s.data

/-! ## Source records (GitHub issues)

A GitHub issue as consumed by the importers: `number`, `title`, `body`,
the list of label names (`[label["name"] for label in issue["labels"]]`),
the browse URL, and whether the JSON object carries a `"pull_request"`
key (`"pull_request" in issue`). -/

structure Issue where
  number : Nat
  title : String
  labels : List String
  body : String
  htmlUrl : String
  isPullRequest : Bool
deriving DecidableEq, Repr

/-- Marker label, `IMPORTED_LABEL` in `bug_postgres.py`. -/
def IMPORTED_LABEL : String := "imported-to-jira"

/-- Marker labels of the bulk importer, `IMPORTED_LABELS` in `bulk_import.py`. -/
def IMPORTED_LABELS : List String := ["imported-to-jira", "bulk"]

/-- `is_bug_issue` from `bug_postgres.py`: a `"bug"` label (case-insensitive)
or an upper-cased title starting with `[BUG]`. -/
def is_bug_issue (issue : Issue) : Bool :=
  (issue.labels.map strLower).contains "bug"
    || startsWithChars "[BUG]".data (strUpper issue.title).data

/-- `is_issue_already_imported` from `bug_postgres.py`: the marker label is
among the issue's labels. -/
def is_issue_already_imported (issue : Issue) : Bool :=
  issue.labels.contains IMPORTED_LABEL

/-- `has_no_labels` from `bulk_import.py`. -/
def has_no_labels (issue : Issue) : Bool :=
  issue.labels.length = 0

/-- `is_issue_already_imported` from `bulk_import.py`: any of the bulk marker
labels is present. -/
def is_issue_already_imported_bulk (issue : Issue) : Bool :=
  IMPORTED_LABELS.any (fun lbl => issue.labels.contains lbl)

/-! ## Test-category derivation (`scripts/bug_postgres.py`) -/

/-- `determine_test_category_from_url` from `scripts/bug_postgres.py`
lines 152-164: empty URL defaults to `"QA"`; a lower-cased URL containing
`/umn/` (or equal to `umn` after stripping) gives `"UAT"`; one containing
`/api-ref/` gives `"QA"`; anything else defaults to `"QA"`. -/
def determine_test_category_from_url (url : String) : String :=
  if url = "" then "QA"
  else
    let urlLower := strLower url
    if strContains urlLower "/umn/" || pyStrip urlLower.data = "umn".data then "UAT"
    else if strContains urlLower "/api-ref/" then "QA"
    else "QA"

/-! ## Master-component resolution -/

/-- Association-list lookup, the model of Python `dict.get`. -/
def lookupAssoc (m : List (String × String)) (k : String) : Option String :=
  match m with
  | [] => none
  | (k', v) :: rest => if k' = k then some v else lookupAssoc rest k

/-- The static `REPO_TO_MASTER_COMPONENT` table of `bug_postgres.py`,
`demand_postgres.py` (insertion order preserved, as in a Python dict). -/
def REPO_TO_MASTER_COMPONENT : List (String × String) :=
  [("dedicated-host", "OCH-1027707"),
   ("auto-scaling", "OCH-1027753"),
   ("elastic-cloud-server", "OCH-1027712"),
   ("image-management-service", "OCH-1568488"),
   ("bare-metal-server", "OCH-1027668"),
   ("relational-database-service", "OCH-1027734"),
   ("gaussdb-opengauss", "OCH-1027718"),
   ("geminidb", "OCH-1027721"),
   ("gaussdb-mysql", "OCH-2332896"),
   ("data-replication-service", "OCH-1027709"),
   ("data-admin-service", "OCH-1027698"),
   ("distributed-database-middleware", "OCH-1278335"),
   ("document-database-service", "OCH-1027703")]

/-- `get_master_component_for_repo` from `bug_postgres.py` lines 257-263
(and, with `ValueError`, `scripts/bug_postgres.py` lines 255-260): a missing
or falsy mapping entry raises
`Master component mapping missing for repository: ...`. -/
def get_master_component_for_repo (repo_name : String)
    (repo_component_mapping : List (String × String)) : Except String String :=
  match lookupAssoc repo_component_mapping repo_name with
  | some v =>
      if v = "" then
        .error ("Master component mapping missing for repository: " ++ repo_name)
      else .ok v
  | none => .error ("Master component mapping missing for repository: " ++ repo_name)

/-- `get_master_component_for_repo` from `demand_postgres.py` lines 270-277
(same logic as `scripts/demand_postgres.py` lines 184-190): a missing or
falsy entry falls back to `list(REPO_TO_MASTER_COMPONENT.values())[0]`
instead of raising. -/
def get_master_component_for_repo_demand (repo_name : String)
    (repo_component_mapping : List (String × String)) : String :=
  match lookupAssoc repo_component_mapping repo_name with
  | some v =>
      if v = "" then (REPO_TO_MASTER_COMPONENT.map Prod.snd).headD ""
      else v
  | none => (REPO_TO_MASTER_COMPONENT.map Prod.snd).headD ""

/-! ## Template parser (`parse_github_issue_body`, `bug_postgres.py` 231-254)

Each section is extracted with
`re.search(r'### Hdr\s*\n\s*([\s\S]*?)(?:\n\s*###|$)', body, re.DOTALL)`.
Worked out against Python's backtracking semantics:

* a match starts at an occurrence of the literal `### Hdr`;
* `\s*\n\s*`: the maximal whitespace run after the literal must contain at
  least one newline (the greedy `\s*` backtracks to the last newline of the
  run, the second `\s*` then swallows the rest of the run), so the lazy
  capture group starts right after that whitespace run;
* the lazy group `([\s\S]*?)` grows one character at a time until either
  `\n\s*###` matches (a newline whose following maximal whitespace run is
  immediately followed by `###` — `#` is not whitespace, so `\s*` cannot
  stop early) or `$` matches (end of string, or just before a final
  newline, since `re.MULTILINE` is not set);
* the captured text is then `.strip()`-ped. -/

/-- End test for the lazy capture group: `\n\s*###` at this suffix, tried
before `$` (which here is `[]` or a lone final newline). -/
def captureEndsAt (l : List Char) : Bool :=
  (match l with
   | '\n' :: t => startsWithChars "###".data (t.dropWhile isPyWs)
   | _ => false)
  || l = [] || l = ['\n']

/-- The lazy capture: characters up to the first position where
`captureEndsAt` holds. -/
def captureGo : List Char → List Char
  | [] => []
  | c :: cs => if captureEndsAt (c :: cs) then [] else c :: captureGo cs

/-- Attempt the `\s*\n\s*([\s\S]*?)(?:\n\s*###|$)` tail of the section
pattern on the text following the header literal; returns the stripped
capture on success. -/
def matchAfterHeader (l : List Char) : Option (List Char) :=
  let run := l.takeWhile isPyWs
  if run.contains '\n' then some (pyStrip (captureGo (l.dropWhile isPyWs)))
  else none

/-- `re.search` for one section pattern: try every occurrence of the header
literal from the left, return the first position where the whole pattern
matches. -/
def searchHeader (hdr : List Char) : List Char → Option (List Char)
  | [] => none
  | c :: cs =>
      if startsWithChars hdr (c :: cs) then
        match matchAfterHeader ((c :: cs).drop hdr.length) with
        | some cap => some cap
        | none => searchHeader hdr cs
      else searchHeader hdr cs

/-- The `fields` dict built by `parse_github_issue_body` in
`bug_postgres.py`: a fixed key set, each key present iff its regex
matched. -/
structure TemplateFields where
  users_impact : Option String
  url : Option String
  description : Option String
  additional_context : Option String
deriving DecidableEq, Repr

/-- The empty `fields` dict (`{}`). -/
def TemplateFields.empty : TemplateFields := ⟨none, none, none, none⟩

/-- String-level wrapper for one section search. -/
def searchSection (hdr : String) (body : String) : Option String :=
  (searchHeader hdr.data body.data).map List.asString

/-- `parse_github_issue_body` from `bug_postgres.py` lines 231-254: empty
body gives `{}`; otherwise the four recognized sections are extracted
independently. -/
def parse_github_issue_body (issue_body : String) : TemplateFields :=
  if issue_body = "" then .empty
  else
    { users_impact := searchSection "### User's Impact" issue_body
      url := searchSection "### Document URL" issue_body
      description := searchSection "### Description" issue_body
      additional_context := searchSection "### Additional Context" issue_body }

/-! ## Rich-text normalizer (`convert_github_images_to_jira`)

`scripts/bug_postgres.py` lines 213-224 and `scripts/demand_postgres.py`
lines 84-97: two sequential `re.sub` passes,

* `<img[^>]+src="([^"]+)"[^>]*>` replaced by `!src!`,
* `!\[([^\]]*)\]\(([^)]+)\)` replaced by `!url!`.

Both scanners below implement Python's leftmost match with the
backtracking priorities of the concrete patterns, replacing left to right
and resuming after each match. -/

/-- Split a character list at the first occurrence of `c`: returns the
characters before it and the characters after it, or `none` when `c` does
not occur.  Models a greedy `[^c]*` followed by the literal `c`. -/
def scanUntil (c : Char) : List Char → Option (List Char × List Char)
  | [] => none
  | x :: xs =>
      if x = c then some ([], xs)
      else
        match scanUntil c xs with
        | some (pre, post) => some (x :: pre, post)
        | none => none

/-- The tail of the img pattern after `src="`:
`([^"]+)"[^>]*>` — a nonempty capture up to the next quote, then skip to
the next `>`.  Returns the capture and the rest after the match. -/
def tryAfterSrc (l : List Char) : Option (List Char × List Char) :=
  match scanUntil '"' l with
  | some (cap, rest2) =>
      if cap.isEmpty then none
      else
        match scanUntil '>' rest2 with
        | some (_, rest3) => some (cap, rest3)
        | none => none
  | none => none

/-- The `[^>]+src="…` part of the img pattern after the `<img` literal.
Greedy `[^>]+` prefers the farthest `src="` whose continuation succeeds,
backtracking to earlier ones; the gap consumed by `[^>]+` must be nonempty
(`hasGap`) and free of `>`. -/
def findSrcGo : List Char → Bool → Option (List Char × List Char)
  | [], _ => none
  | c :: cs, hasGap =>
      if c = '>' then none
      else
        match findSrcGo cs true with
        | some r => some r
        | none =>
            if hasGap && startsWithChars "src=\"".data (c :: cs) then
              tryAfterSrc ((c :: cs).drop 5)
            else none

/-- Try the whole img pattern `<img[^>]+src="([^"]+)"[^>]*>` anchored at
the head of the list; returns the captured `src` and the rest after the
match. -/
def tryImgAt : List Char → Option (List Char × List Char)
  | '<' :: 'i' :: 'm' :: 'g' :: rest => findSrcGo rest false
  | _ => none

/-- Try the markdown image pattern `!\[([^\]]*)\]\(([^)]+)\)` anchored at
the head of the list; returns the captured URL and the rest after the
match.  `[^\]]*` runs to the first `]`, `[^)]+` is a nonempty run to the
first `)`. -/
def tryMdAt : List Char → Option (List Char × List Char)
  | '!' :: '[' :: rest =>
      (match scanUntil ']' rest with
       | some (_, '(' :: rest2) =>
           match scanUntil ')' rest2 with
           | some (url, rest3) => if url.isEmpty then none else some (url, rest3)
           | none => none
       | _ => none)
  | _ => none

/-- One `re.sub` pass, parameterized by the anchored matcher: scan left to
right, replace each match by `!capture!`, resume after the match.  `fuel`
bounds the recursion; every step consumes at least one character, so fuel
equal to the input length always suffices. -/
def reSubGo (tryAt : List Char → Option (List Char × List Char)) :
    Nat → List Char → List Char
  | 0, l => l
  | _ + 1, [] => []
  | fuel + 1, c :: cs =>
      match tryAt (c :: cs) with
      | some (cap, rest) => '!' :: (cap ++ '!' :: reSubGo tryAt fuel rest)
      | none => c :: reSubGo tryAt fuel cs

/-- `re.sub` of the img pattern over a whole string. -/
def subImg (l : List Char) : List Char := reSubGo tryImgAt l.length l

/-- `re.sub` of the markdown image pattern over a whole string. -/
def subMd (l : List Char) : List Char := reSubGo tryMdAt l.length l

/-- `convert_github_images_to_jira` from `scripts/bug_postgres.py`
lines 213-224: falsy text is returned unchanged, otherwise the img pass
runs first and the markdown pass runs on its output. -/
def convert_github_images_to_jira (text : String) : String :=
  if text = "" then text
  else ⟨subMd (subImg text.data)⟩

/-- Whether the anchored matcher matches at some position of the list. -/
def hasMatchAnywhere (tryAt : List Char → Option (List Char × List Char)) :
    List Char → Bool
  | [] => (tryAt []).isSome
  | c :: cs => (tryAt (c :: cs)).isSome || hasMatchAnywhere tryAt cs

/-- Whether either input image pattern occurs anywhere in the text — the
condition the spec appeals to when asserting idempotence. -/
def hasImagePattern (text : String) : Bool :=
  hasMatchAnywhere tryImgAt text.data || hasMatchAnywhere tryMdAt text.data

/-! ## Import pipeline (`import_to_jira`, `bug_postgres.py` 266-395)

The loop body of `import_to_jira` is modelled per issue.  The two remote
systems are oracles: `existsInJira` is the boolean outcome of
`check_jira_for_github_issue` and `createIssue` returns the new issue key
when Jira answers 201 and `none` otherwise.  The component lookup can
raise, which aborts the whole loop (`Except.error`), exactly as the
uncaught Python exception does. -/

/-- Jira project key `PROJECT_KEY` of the bug importer. -/
def PROJECT_KEY : String := "BM"

/-- Jira issue type `ISSUE_TYPE` of the bug importer. -/
def ISSUE_TYPE : String := "Bug"

/-- The description cap: Jira's maximum field length, from
`description_with_link[:32767]`. -/
def truncateTo32767 (s : String) : String := ⟨s.data.take 32767⟩

/-- `github_link_text` of `bug_postgres.py` lines 333-334. -/
def github_link_text (issue : Issue) (repo_name : String) : String :=
  "\n\n*Imported from [GitHub Issue #" ++ toString issue.number ++ "](" ++
    issue.htmlUrl ++ ") in repository " ++ repo_name ++ "*"

/-- `description_with_link` of `bug_postgres.py` lines 336-350: the
template description (or the raw body when the section is absent), the
`Document URL` / `Additional Context` tails for present non-empty
sections, and the provenance footer. -/
def description_with_link (issue : Issue) (repo_name : String)
    (template_fields : TemplateFields) : String :=
  let original_description :=
    match template_fields.description with
    | some d => d
    | none => issue.body
  let additional_info :=
    (match template_fields.url with
     | some u => if u ≠ "" then "Document URL:**\n" ++ u else ""
     | none => "") ++
    (match template_fields.additional_context with
     | some c => if c ≠ "" then "Additional Context:**\n" ++ c else ""
     | none => "")
  original_description ++ additional_info ++ github_link_text issue repo_name

/-- The Jira issue payload assembled by `import_to_jira`
(`bug_postgres.py` lines 321-369), with the fields the custom-field map
populates. -/
structure JiraIssueFields where
  projectKey : String
  issuetype : String
  summary : String
  masterComponent : String
  description : String
  testCategoryId : String
  affectedLocations : List String
  bugType : String
  affectedAreas : String
  usersImpact : Option String
  priority : String
  labels : List String
deriving DecidableEq, Repr

/-- `issue_data` for one issue (`bug_postgres.py` lines 321-369), after the
component lookup succeeded. -/
def buildIssueData (issue : Issue) (repo_name : String)
    (master_component_key : String) (template_fields : TemplateFields) :
    JiraIssueFields :=
  { projectKey := PROJECT_KEY
    issuetype := ISSUE_TYPE
    summary := "[" ++ repo_name ++ "] " ++ issue.title
    masterComponent := master_component_key
    description := truncateTo32767 (description_with_link issue repo_name template_fields)
    testCategoryId := "17600"
    affectedLocations := ["EU-DE-03 AZ3 (Germany/Biere)"]
    bugType := "Documentation"
    affectedAreas := "Production"
    usersImpact := template_fields.users_impact
    priority := "Medium"
    labels := ["bug", "github-import", repo_name] }

/-- Per-record outcome, the counter each loop iteration increments (or,
for pull requests, the absence of any increment). -/
inductive Outcome where
  | notCounted
  | skippedNotBug
  | skippedHasLabels
  | skippedAlreadyImported
  | skippedExistsInJira
  | skippedNoTemplate
  | created
  | failed
deriving DecidableEq, Repr

/-- Whether an outcome is tallied in the `skipped_imports` counter. -/
def Outcome.isSkipped : Outcome → Bool
  | .skippedNotBug | .skippedHasLabels | .skippedAlreadyImported
  | .skippedExistsInJira | .skippedNoTemplate => true
  | _ => false

/-- Side effects applied to the GitHub record by the loop body. -/
inductive Action where
  | addImportedLabel
  | addJiraLinkComment (jira_key : String)
deriving DecidableEq, Repr

/-- The remote systems as oracles. -/
structure JiraEnv where
  existsInJira : Nat → String → Bool
  createIssue : JiraIssueFields → Option String

/-- The loop body of `import_to_jira` (`bug_postgres.py` lines 287-393)
for one issue: classification, duplicate checks, template gate, payload
construction and creation, with the outcome and the GitHub-side actions.
A missing component mapping raises. -/
def processIssue (env : JiraEnv) (repo_name : String)
    (repo_component_mapping : List (String × String)) (issue : Issue) :
    Except String (Outcome × List Action) :=
  if issue.isPullRequest then .ok (.notCounted, [])
  else if ¬ is_bug_issue issue then .ok (.skippedNotBug, [])
  else if is_issue_already_imported issue then .ok (.skippedAlreadyImported, [])
  else if env.existsInJira issue.number repo_name then
    .ok (.skippedExistsInJira, [.addImportedLabel])
  else
    let template_fields := parse_github_issue_body issue.body
    if template_fields = .empty then .ok (.skippedNoTemplate, [])
    else
      match get_master_component_for_repo repo_name repo_component_mapping with
      | .error e => .error e
      | .ok master_component_key =>
          let issue_data := buildIssueData issue repo_name master_component_key template_fields
          match env.createIssue issue_data with
          | some jira_key =>
              .ok (.created, [.addJiraLinkComment jira_key, .addImportedLabel])
          | none => .ok (.failed, [])

/-- The counter accumulation of `import_to_jira`: fold the loop body over
the issue list, threading `successful`, `failed` and `skipped`. -/
def importToJiraGo (env : JiraEnv) (repo_name : String)
    (mapping : List (String × String)) :
    List Issue → Nat → Nat → Nat → Except String (Nat × Nat × Nat)
  | [], s, f, k => .ok (s, f, k)
  | issue :: rest, s, f, k =>
      match processIssue env repo_name mapping issue with
      | .error e => .error e
      | .ok (o, _) =>
          match o with
          | .notCounted => importToJiraGo env repo_name mapping rest s f k
          | .created => importToJiraGo env repo_name mapping rest (s + 1) f k
          | .failed => importToJiraGo env repo_name mapping rest s (f + 1) k
          | _ => importToJiraGo env repo_name mapping rest s f (k + 1)

/-- `import_to_jira` from `bug_postgres.py` lines 266-395: returns
`(successful_imports, failed_imports, skipped_imports)` unless an
exception aborts the loop. -/
def import_to_jira (env : JiraEnv) (issues : List Issue) (repo_name : String)
    (repo_component_mapping : List (String × String)) :
    Except String (Nat × Nat × Nat) :=
  importToJiraGo env repo_name repo_component_mapping issues 0 0 0

/-! ## Bulk importer (`bulk_import.py` 197-307) -/

/-- The static `REPO_TO_MASTER_COMPONENT` table of `bulk_import.py`
(it additionally carries `taurusdb`). -/
def REPO_TO_MASTER_COMPONENT_BULK : List (String × String) :=
  [("dedicated-host", "OCH-1027707"),
   ("auto-scaling", "OCH-1027753"),
   ("elastic-cloud-server", "OCH-1027712"),
   ("image-management-service", "OCH-1568488"),
   ("bare-metal-server", "OCH-1027668"),
   ("relational-database-service", "OCH-1027734"),
   ("gaussdb-opengauss", "OCH-1027718"),
   ("geminidb", "OCH-1027721"),
   ("taurusdb", "OCH-2336898"),
   ("gaussdb-mysql", "OCH-2332896"),
   ("data-replication-service", "OCH-1027709"),
   ("data-admin-service", "OCH-1027698"),
   ("distributed-database-middleware", "OCH-1278335"),
   ("document-database-service", "OCH-1027703")]

/-- `get_master_component_for_repo` from `bulk_import.py` lines 188-194:
looks up the module-level table, raises `ValueError` when absent. -/
def get_master_component_for_repo_bulk (repo_name : String) :
    Except String String :=
  get_master_component_for_repo repo_name REPO_TO_MASTER_COMPONENT_BULK

/-- `issue_data` of `bulk_import_to_jira` (`bulk_import.py` lines 239-279):
the raw body (or `"No description provided"`) plus the bulk provenance
footer, truncated; fixed hardcoded custom-field values. -/
def buildBulkIssueData (issue : Issue) (repo_name : String)
    (master_component_key : String) : JiraIssueFields :=
  let issue_body := if issue.body = "" then "No description provided" else issue.body
  let link_text :=
    "\n\n*Bulk imported from [GitHub Issue #" ++ toString issue.number ++ "](" ++
      issue.htmlUrl ++ ") in repository" ++ repo_name ++ "*"
  { projectKey := PROJECT_KEY
    issuetype := ISSUE_TYPE
    summary := "[" ++ repo_name ++ "] " ++ issue.title
    masterComponent := master_component_key
    description := truncateTo32767 (issue_body ++ link_text)
    testCategoryId := "17600"
    affectedLocations := ["EU-DE-03 AZ3 (Germany/Biere)"]
    bugType := "Documentation"
    affectedAreas := "Production"
    usersImpact := none
    priority := "Medium"
    labels := ["bulk-import", "github-import", repo_name] }

/-- The loop body of `bulk_import_to_jira` (`bulk_import.py` lines 216-305)
for one issue: only unlabeled issues are bulk-imported; there is no
template gate. -/
def processBulkIssue (env : JiraEnv) (repo_name : String) (issue : Issue) :
    Except String (Outcome × List Action) :=
  if issue.isPullRequest then .ok (.notCounted, [])
  else if ¬ has_no_labels issue then .ok (.skippedHasLabels, [])
  else if is_issue_already_imported_bulk issue then .ok (.skippedAlreadyImported, [])
  else if env.existsInJira issue.number repo_name then
    .ok (.skippedExistsInJira, [.addImportedLabel])
  else
    match get_master_component_for_repo_bulk repo_name with
    | .error e => .error e
    | .ok master_component_key =>
        match env.createIssue (buildBulkIssueData issue repo_name master_component_key) with
        | some jira_key =>
            .ok (.created, [.addJiraLinkComment jira_key, .addImportedLabel])
        | none => .ok (.failed, [])

/-- Counter accumulation of `bulk_import_to_jira`. -/
def bulkImportToJiraGo (env : JiraEnv) (repo_name : String) :
    List Issue → Nat → Nat → Nat → Except String (Nat × Nat × Nat)
  | [], s, f, k => .ok (s, f, k)
  | issue :: rest, s, f, k =>
      match processBulkIssue env repo_name issue with
      | .error e => .error e
      | .ok (o, _) =>
          match o with
          | .notCounted => bulkImportToJiraGo env repo_name rest s f k
          | .created => bulkImportToJiraGo env repo_name rest (s + 1) f k
          | .failed => bulkImportToJiraGo env repo_name rest s (f + 1) k
          | _ => bulkImportToJiraGo env repo_name rest s f (k + 1)

/-- `bulk_import_to_jira` from `bulk_import.py` lines 197-307. -/
def bulk_import_to_jira (env : JiraEnv) (issues : List Issue)
    (repo_name : String) : Except String (Nat × Nat × Nat) :=
  bulkImportToJiraGo env repo_name issues 0 0 0

/-! ## Duplicate detector against Jira (`check_jira_for_github_issue`,
`JiraClient.search_issues` / `check_issue_exists`)

The HTTP exchange is modelled by its outcome: either a raised requests
exception (`Except.error`) or a response with a status code and the
parsed `total`. -/

/-- A Jira search response: HTTP status and the `total` field of the JSON
body -/
structure JiraSearchResponse where
  statusCode : Nat
  total : Nat
deriving DecidableEq, Repr

/-- The JQL string built by `check_jira_for_github_issue`
(`bug_postgres.py` line 209): project, `#number` in the summary, repository
name in the summary. -/
def checkJql (github_issue_number : Nat) (project_key repo_name : String) : String :=
  "project = " ++ project_key ++ " AND summary ~ \"#" ++
    toString github_issue_number ++ "\" AND summary ~ \"" ++ repo_name ++ "\""

/-- `check_jira_for_github_issue` from `bug_postgres.py` lines 208-228 as a
function of the exchange outcome: a raised request exception propagates
(there is no `try`/`except`); a non-200 status yields `False`; a 200
response yields `total > 0`. -/
def check_jira_for_github_issue (resp : Except String JiraSearchResponse) :
    Except String Bool :=
  match resp with
  | .error e => .error e
  | .ok r => if r.statusCode ≠ 200 then .ok false else .ok (decide (r.total > 0))

/-- `JiraClient.search_issues` from `config/connections.py` lines 356-377:
non-200 yields `None`, 200 yields the parsed body (its `total`); a raised
request exception propagates (no `try`/`except`). -/
def searchIssues (resp : Except String JiraSearchResponse) :
    Except String (Option Nat) :=
  match resp with
  | .error e => .error e
  | .ok r => if r.statusCode ≠ 200 then .ok none else .ok (some r.total)

/-- `JiraClient.check_issue_exists` from `config/connections.py` lines
413-420: truthy search result yields `total > 0`, `None` yields `False`;
an exception from `search_issues` propagates. -/
def check_issue_exists (resp : Except String JiraSearchResponse) :
    Except String Bool :=
  match searchIssues resp with
  | .error e => .error e
  | .ok (some t) => .ok (decide (t > 0))
  | .ok none => .ok false

/-! ## Resilient HTTP client retry configuration
(`config/connections.py` 22-31) -/

/-- The `urllib3.util.retry.Retry` configuration values. -/
structure RetryConfig where
  total : Nat
  backoffFactor : Nat
  statusForcelist : List Nat
deriving DecidableEq, Repr

/-- `retry_strategy` from `config/connections.py` lines 23-28. -/
def retry_strategy : RetryConfig :=
  { total := 3
    backoffFactor := 1
    statusForcelist := [429, 500, 502, 503, 504] }

/-- The request loop of `urllib3` driven by a `Retry` object (the loop
itself lives in the urllib3 dependency, not in this repository; modelled
after urllib3's documented semantics, in which `total` counts the retries
allowed AFTER the initial request).  `outcomes k` is the HTTP status of
the `k`-th request; a request is retried while its status is in
`status_forcelist` and retries remain.  Returns the number of requests
issued. -/
def attemptsIssuedGo (cfg : RetryConfig) (outcomes : Nat → Nat) :
    Nat → Nat → Nat
  | remaining, idx =>
      if cfg.statusForcelist.contains (outcomes idx) then
        match remaining with
        | 0 => 1
        | r + 1 => 1 + attemptsIssuedGo cfg outcomes r (idx + 1)
      else 1

/-- Total number of HTTP requests one logical call issues under the
given retry configuration and per-attempt statuses. -/
def attemptsIssued (cfg : RetryConfig) (outcomes : Nat → Nat) : Nat :=
  attemptsIssuedGo cfg outcomes cfg.total 0

/-! ## Paginated issue listing (`export_all_github_issues`,
`bulk_import.py` 81-113, and `GitHubClient.get_all_issues_paginated`,
`config/connections.py` 200-232)

The GitHub server is the oracle `pages : Nat → List Issue` giving the
issues of each 1-indexed page for the fixed `per_page = 100`.  The model
additionally records the list of page numbers requested, and carries fuel
for the unbounded `while True`; every iteration either terminates or moves
to the next page, so any fuel at least the index of the first short page
makes the fuel case unreachable. -/

/-- The `while True` pagination loop shared verbatim by
`export_all_github_issues` and `GitHubClient.get_all_issues_paginated`:
request the current page, stop on an empty page, accumulate, stop after a
page shorter than `per_page`, else advance. -/
def paginateGo (pages : Nat → List Issue) (per_page : Nat) :
    Nat → Nat → List Issue × List Nat
  | 0, _ => ([], [])
  | fuel + 1, page =>
      let issues := pages page
      if issues = [] then ([], [page])
      else if issues.length < per_page then (issues, [page])
      else
        let (rest_issues, rest_pages) := paginateGo pages per_page fuel (page + 1)
        (issues ++ rest_issues, page :: rest_pages)

/-- `export_all_github_issues` from `bulk_import.py` lines 81-113: page
size 100, starting at page 1; returns the accumulated issues and the trace
of requested pages. -/
def export_all_github_issues (pages : Nat → List Issue) (fuel : Nat) :
    List Issue × List Nat :=
  paginateGo pages 100 fuel 1

/-- `GitHubClient.get_all_issues_paginated` from `config/connections.py`
lines 200-232: the same loop (the only difference in the source is that
`page += 1` executes before the short-page test instead of after, which
does not change the requested pages or the result). -/
def get_all_issues_paginated (pages : Nat → List Issue) (fuel : Nat) :
    List Issue × List Nat :=
  paginateGo pages 100 fuel 1

/-- Concatenation of `n` consecutive pages starting at `start`. -/
def concatPages (pages : Nat → List Issue) : Nat → Nat → List Issue
  | _, 0 => []
  | start, n + 1 => pages start ++ concatPages pages (start + 1) n

/-! ## Sample inputs used by the concrete witnesses -/

/-- An oracle environment in which the Jira duplicate search always
reports a hit and creation always fails. -/
def envAllExist : JiraEnv where
  existsInJira := fun _ _ => true
  createIssue := fun _ => none

/-- An oracle environment in which the duplicate search reports no hit and
creation always succeeds with key `BM-1`. -/
def envAllCreate : JiraEnv where
  existsInJira := fun _ _ => false
  createIssue := fun _ => some "BM-1"

/-- A bug-labeled issue without the marker label. -/
def sampleBugIssue : Issue where
  number := 7
  title := "[BUG] broken docs"
  labels := ["bug"]
  body := "plain body"
  htmlUrl := "https://github.com/opentelekomcloud-docs/dedicated-host/issues/7"
  isPullRequest := false

/-- A pull request carrying the bug label. -/
def samplePrIssue : Issue where
  number := 8
  title := "[BUG] fix in a PR"
  labels := ["bug"]
  body := "body"
  htmlUrl := "https://github.com/opentelekomcloud-docs/dedicated-host/pull/8"
  isPullRequest := true

/-- A bug issue whose body uses the issue template. -/
def sampleTemplatedIssue : Issue where
  number := 9
  title := "[BUG] wrong example"
  labels := []
  body := "### Description\nThe example is wrong\n### Document URL\n\nhttps://docs.otc/umn/x.html\n"
  htmlUrl := "https://github.com/opentelekomcloud-docs/dedicated-host/issues/9"
  isPullRequest := false

/-! ## Theorems -/

/-- **C1.** For every source record for which the target-system duplicate
search reports true (the record is a non-PR bug issue, so the search is
reached) and whose label set does not contain the marker label, one
pipeline pass applies the marker label to the source record and counts it
as skipped, not as failed and not as created. -/
theorem existsInTarget_self_heals (env : JiraEnv) (repo_name : String)
    (mapping : List (String × String)) (issue : Issue)
    (hpr : issue.isPullRequest = false)
    (hbug : is_bug_issue issue = true)
    (hlabel : issue.labels.contains IMPORTED_LABEL = false)
    (hexists : env.existsInJira issue.number repo_name = true) :
    processIssue env repo_name mapping issue =
      .ok (.skippedExistsInJira, [.addImportedLabel]) ∧
    import_to_jira env [issue] repo_name mapping = .ok (0, 0, 1) := by
  have h1 : is_issue_already_imported issue = false := by
    unfold is_issue_already_imported
    exact hlabel
  have h2 : processIssue env repo_name mapping issue =
      .ok (.skippedExistsInJira, [.addImportedLabel]) := by
    simp [processIssue, hpr, hbug, h1, hexists]
  refine ⟨h2, ?_⟩
  simp [import_to_jira, importToJiraGo, h2]

/-- Witness for C1 at a concrete record and oracle environment. -/
theorem existsInTarget_self_heals_witness :
    processIssue envAllExist "dedicated-host" REPO_TO_MASTER_COMPONENT sampleBugIssue =
      .ok (.skippedExistsInJira, [.addImportedLabel]) ∧
    import_to_jira envAllExist [sampleBugIssue] "dedicated-host" REPO_TO_MASTER_COMPONENT =
      .ok (0, 0, 1) :=
  existsInTarget_self_heals envAllExist "dedicated-host" REPO_TO_MASTER_COMPONENT
    sampleBugIssue (by decide) (by decide) (by decide) (by decide)

/-- **C2 counterexample.** The claim says every importer variant raises a
configuration error for an unmapped repository.  The demand importer
(`demand_postgres.py` lines 270-277) instead silently substitutes the
first component of the static table: at the concrete unmapped repository
`"unknown-repo"` it produces `"OCH-1027707"` and no error. -/
theorem component_missing_demand_defaults :
    get_master_component_for_repo_demand "unknown-repo" REPO_TO_MASTER_COMPONENT =
      "OCH-1027707" := by decide

/-- **C2 (amended).** A repository absent from the mapping makes
`get_master_component_for_repo` raise a configuration error in the bug
importer variants (`bug_postgres.py`, `scripts/bug_postgres.py`,
`bulk_import.py`), while the demand importer variants fall back to the
first value of the static component table instead of raising. -/
theorem component_missing_raises_in_bug_variants (repo_name : String)
    (mapping : List (String × String))
    (h : lookupAssoc mapping repo_name = none) :
    get_master_component_for_repo repo_name mapping =
      .error ("Master component mapping missing for repository: " ++ repo_name) ∧
    get_master_component_for_repo_demand repo_name mapping = "OCH-1027707" := by
  unfold get_master_component_for_repo get_master_component_for_repo_demand
  rw [h]
  exact ⟨rfl, rfl⟩

/-- Witness for the amended C2 at a concrete unmapped repository. -/
theorem component_missing_raises_in_bug_variants_witness :
    get_master_component_for_repo "unmapped-repo" REPO_TO_MASTER_COMPONENT =
      .error ("Master component mapping missing for repository: " ++ "unmapped-repo") ∧
    get_master_component_for_repo_demand "unmapped-repo" REPO_TO_MASTER_COMPONENT =
      "OCH-1027707" :=
  component_missing_raises_in_bug_variants "unmapped-repo" REPO_TO_MASTER_COMPONENT
    (by decide)

/-- A `re.sub` pass leaves a string unchanged when its pattern matches at
no position. -/
theorem reSubGo_of_no_match (tryAt : List Char → Option (List Char × List Char))
    (fuel : Nat) (l : List Char) (h : hasMatchAnywhere tryAt l = false) :
    reSubGo tryAt fuel l = l := by
  induction fuel generalizing l with
  | zero => rfl
  | succ n ih =>
      cases l with
      | nil => rfl
      | cons c cs =>
          unfold hasMatchAnywhere at h
          rw [Bool.or_eq_false_iff] at h
          obtain ⟨h1, h2⟩ := h
          cases htry : tryAt (c :: cs) with
          | some r => rw [htry] at h1; simp at h1
          | none => unfold reSubGo; rw [htry, ih cs h2]

/-- A text in which neither image pattern occurs anywhere is a fixed point
of the normalizer. -/
theorem convert_fixed_of_no_pattern (s : String)
    (h : hasImagePattern s = false) :
    convert_github_images_to_jira s = s := by
  unfold hasImagePattern at h
  rw [Bool.or_eq_false_iff] at h
  obtain ⟨h1, h2⟩ := h
  unfold convert_github_images_to_jira
  split
  · rfl
  · unfold subImg
    rw [reSubGo_of_no_match _ _ _ h1]
    unfold subMd
    rw [reSubGo_of_no_match _ _ _ h2]

/-- **C3 counterexample.** The normalizer is not idempotent: on
`"![a](u)[b](v)"` one pass yields `"!u![b](v)"` (the substituted `!u!`
abuts the following `[b](v)`, forming a fresh markdown-image match), and a
second pass yields `"!u!v!"`. -/
theorem normalize_not_idempotent :
    convert_github_images_to_jira (convert_github_images_to_jira "![a](u)[b](v)") ≠
      convert_github_images_to_jira "![a](u)[b](v)" ∧
    convert_github_images_to_jira "![a](u)[b](v)" = "!u![b](v)" ∧
    convert_github_images_to_jira "!u![b](v)" = "!u!v!" := by decide

/-- **C3 (amended).** The normalizer is idempotent on every text whose
single-pass output contains no further occurrence of either input image
pattern; this is the condition the spec appeals to, but it does not hold
for all inputs (see the counterexample), so idempotence is not universal. -/
theorem normalize_idempotent_when_output_clean (t : String)
    (h : hasImagePattern (convert_github_images_to_jira t) = false) :
    convert_github_images_to_jira (convert_github_images_to_jira t) =
      convert_github_images_to_jira t :=
  convert_fixed_of_no_pattern _ h

/-- Witness for the amended C3 at a concrete image-bearing text. -/
theorem normalize_idempotent_when_output_clean_witness :
    hasImagePattern (convert_github_images_to_jira "see ![a](http://img.png) done") = false ∧
    convert_github_images_to_jira
        (convert_github_images_to_jira "see ![a](http://img.png) done") =
      convert_github_images_to_jira "see ![a](http://img.png) done" :=
  ⟨by decide, normalize_idempotent_when_output_clean _ (by decide)⟩

/-- The retry loop issues at most `remaining + 1` requests. -/
theorem attemptsIssuedGo_le (cfg : RetryConfig) (outcomes : Nat → Nat)
    (remaining idx : Nat) :
    attemptsIssuedGo cfg outcomes remaining idx ≤ remaining + 1 := by
  induction remaining generalizing idx with
  | zero =>
      unfold attemptsIssuedGo
      split
      · exact Nat.le_refl 1
      · exact Nat.le_refl 1
  | succ r ih =>
      unfold attemptsIssuedGo
      split
      · show 1 + attemptsIssuedGo cfg outcomes r (idx + 1) ≤ r + 1 + 1
        have := ih (idx + 1)
        omega
      · exact Nat.le_add_left 1 (r + 1)

/-- **C4 counterexample.** The claim says at most 3 attempts in total per
call, but `Retry(total=3)` allows 3 retries after the initial request:
when every attempt returns 500, 4 requests are issued. -/
theorem retry_four_attempts_on_persistent_500 :
    attemptsIssued retry_strategy (fun _ => 500) = 4 := by decide

/-- **C4 (amended).** The configured strategy retries exactly the statuses
429, 500, 502, 503, 504 (no other 4xx), with `backoff_factor = 1`
(exponential backoff) and `total = 3` retries after the initial request,
so at most 4 requests are issued per call; a first response outside the
forcelist ends the call after a single request. -/
theorem retry_strategy_bounds (outcomes : Nat → Nat) (s : Nat) :
    attemptsIssued retry_strategy outcomes ≤ 4 ∧
    (outcomes 0 ∉ retry_strategy.statusForcelist →
      attemptsIssued retry_strategy outcomes = 1) ∧
    (s ∈ retry_strategy.statusForcelist ↔
      s = 429 ∨ s = 500 ∨ s = 502 ∨ s = 503 ∨ s = 504) ∧
    (400 ≤ s → s < 500 → s ≠ 429 → s ∉ retry_strategy.statusForcelist) ∧
    retry_strategy.total = 3 ∧ retry_strategy.backoffFactor = 1 := by
  have hmem : s ∈ retry_strategy.statusForcelist ↔
      s = 429 ∨ s = 500 ∨ s = 502 ∨ s = 503 ∨ s = 504 := by
    simp [retry_strategy]
  refine ⟨attemptsIssuedGo_le retry_strategy outcomes 3 0, ?_, hmem, ?_, rfl, rfl⟩
  · intro h
    unfold attemptsIssued attemptsIssuedGo
    have hc : retry_strategy.statusForcelist.contains (outcomes 0) = false := by
      simpa using h
    rw [hc]
    simp
  · intro h1 h2 h3 hmem'
    rcases hmem.mp hmem' with h | h | h | h | h <;> omega

/-- Witness for the amended C4: a 404 response is not retried. -/
theorem retry_strategy_bounds_witness :
    attemptsIssued retry_strategy (fun _ => 404) = 1 :=
  (retry_strategy_bounds (fun _ => 404) 404).2.1 (by decide)

/-- The section search fails when the header literal does not occur in the
body. -/
theorem searchHeader_of_not_contains (hdr l : List Char)
    (h : containsSub hdr l = false) : searchHeader hdr l = none := by
  induction l with
  | nil => rfl
  | cons c cs ih =>
      unfold containsSub at h
      rw [Bool.or_eq_false_iff] at h
      obtain ⟨h1, h2⟩ := h
      simp only [searchHeader, h1, Bool.false_eq_true, if_false]
      exact ih h2

/-- A bug issue without the marker label. -/
def sampleNoTemplateIssue : Issue where
  number := 11
  title := "plain report"
  labels := ["bug"]
  body := "just some text"
  htmlUrl := "https://github.com/opentelekomcloud-docs/dedicated-host/issues/11"
  isPullRequest := false

/-- **C5.** A body in which none of the recognized template section
headers occurs parses to the empty mapping, and the pipeline counts such a
record (when it reaches the template gate) as skipped, not failed and not
created. -/
theorem no_template_sections_skipped (body : String)
    (h1 : strContains body "### User's Impact" = false)
    (h2 : strContains body "### Document URL" = false)
    (h3 : strContains body "### Description" = false)
    (h4 : strContains body "### Additional Context" = false)
    (env : JiraEnv) (repo_name : String) (mapping : List (String × String))
    (issue : Issue)
    (hpr : issue.isPullRequest = false)
    (hbug : is_bug_issue issue = true)
    (him : is_issue_already_imported issue = false)
    (hex : env.existsInJira issue.number repo_name = false)
    (hbody : issue.body = body) :
    parse_github_issue_body body = .empty ∧
    processIssue env repo_name mapping issue = .ok (.skippedNoTemplate, []) ∧
    import_to_jira env [issue] repo_name mapping = .ok (0, 0, 1) := by
  have hparse : parse_github_issue_body body = .empty := by
    unfold parse_github_issue_body
    split
    · rfl
    · simp [searchSection, TemplateFields.empty,
        searchHeader_of_not_contains _ _ h1, searchHeader_of_not_contains _ _ h2,
        searchHeader_of_not_contains _ _ h3, searchHeader_of_not_contains _ _ h4]
  have hproc : processIssue env repo_name mapping issue =
      .ok (.skippedNoTemplate, []) := by
    simp [processIssue, hpr, hbug, him, hex, hbody, hparse]
  exact ⟨hparse, hproc, by simp [import_to_jira, importToJiraGo, hproc]⟩

/-- Witness for C5 at a concrete non-template body. -/
theorem no_template_sections_skipped_witness :
    parse_github_issue_body "just some text" = .empty ∧
    processIssue envAllCreate "dedicated-host" REPO_TO_MASTER_COMPONENT
        sampleNoTemplateIssue = .ok (.skippedNoTemplate, []) ∧
    import_to_jira envAllCreate [sampleNoTemplateIssue] "dedicated-host"
        REPO_TO_MASTER_COMPONENT = .ok (0, 0, 1) :=
  no_template_sections_skipped "just some text" (by decide) (by decide) (by decide)
    (by decide) envAllCreate "dedicated-host" REPO_TO_MASTER_COMPONENT
    sampleNoTemplateIssue (by decide) (by decide) (by decide) (by decide) rfl

/-- **C6.** The description submitted to Jira is the constructed
description truncated to its prefix of length `min(length, 32767)`: pure
suffix truncation, with shorter descriptions submitted unchanged. -/
theorem description_suffix_truncated (issue : Issue) (repo_name : String)
    (master_component_key : String) (template_fields : TemplateFields) :
    (buildIssueData issue repo_name master_component_key template_fields).description =
      truncateTo32767 (description_with_link issue repo_name template_fields) ∧
    ∀ d : String,
      (truncateTo32767 d).data = d.data.take 32767 ∧
      (truncateTo32767 d).data.length = min d.data.length 32767 ∧
      (d.data.length ≤ 32767 → truncateTo32767 d = d) ∧
      (truncateTo32767 d).data <+: d.data := by
  refine ⟨rfl, fun d => ⟨rfl, ?_, ?_, ?_⟩⟩
  · simp [truncateTo32767, List.length_take, Nat.min_comm]
  · intro hle
    unfold truncateTo32767
    rw [List.take_of_length_le hle]
  · exact List.take_prefix 32767 d.data

/-- Witness for C6: a short description is submitted unchanged. -/
theorem description_suffix_truncated_witness :
    truncateTo32767 "short description" = "short description" :=
  ((description_suffix_truncated sampleBugIssue "dedicated-host" "OCH-1027707"
      .empty).2 "short description").2.2.1 (by decide)

/-- **C7 counterexample.** The claim assigns `"QA"` to every URL
containing `/api-ref/` and to every URL containing neither marker; but
`"/umn/api-ref/"` contains `/api-ref/` and is categorized `"UAT"`, and
`" umn "` contains neither marker yet is categorized `"UAT"` (the
`strip() == "umn"` branch). -/
theorem test_category_umn_wins :
    strContains (strLower "/umn/api-ref/") "/api-ref/" = true ∧
    determine_test_category_from_url "/umn/api-ref/" = "UAT" ∧
    strContains (strLower " umn ") "/umn/" = false ∧
    strContains (strLower " umn ") "/api-ref/" = false ∧
    determine_test_category_from_url " umn " = "UAT" := by decide

/-- **C7 (amended).** The derived category is `"UAT"` exactly when the
lower-cased URL contains `/umn/` or strips to `"umn"`, and `"QA"` in every
other case — also when the URL contains `/api-ref/` together with a
`/umn/` marker the `/umn/` test wins, and the empty URL gives `"QA"`. -/
theorem determine_test_category_characterization (url : String) :
    determine_test_category_from_url url =
      if strContains (strLower url) "/umn/" || pyStrip (strLower url).data = "umn".data
      then "UAT" else "QA" := by
  unfold determine_test_category_from_url
  split
  · next h => subst h; decide
  · dsimp only
    split
    · rfl
    · split <;> rfl

/-- The pagination loop, started anywhere: when the next `n` pages are
full and the page after them is empty or short, it visits exactly those
`n + 1` pages in order and returns their concatenation. -/
theorem paginateGo_spec (pages : Nat → List Issue) (per_page : Nat)
    (hpp : 0 < per_page) :
    ∀ (n start fuel : Nat),
      (∀ i, i < n → (pages (start + i)).length = per_page) →
      (pages (start + n) = [] ∨ (pages (start + n)).length < per_page) →
      n < fuel →
      paginateGo pages per_page fuel start =
        (concatPages pages start (n + 1), List.range' start (n + 1)) := by
  intro n
  induction n with
  | zero =>
      intro start fuel hfull hshort hfuel
      cases fuel with
      | zero => omega
      | succ f =>
          unfold paginateGo
          rcases hshort with hempty | hlt
          · rw [Nat.add_zero] at hempty
            simp [hempty, concatPages]
          · rw [Nat.add_zero] at hlt
            by_cases hnil : pages start = []
            · simp [hnil, concatPages]
            · simp only [hnil, if_false, if_pos hlt, concatPages]
              simp
  | succ n ih =>
      intro start fuel hfull hshort hfuel
      cases fuel with
      | zero => omega
      | succ f =>
          have h0 : (pages start).length = per_page := by
            have := hfull 0 (Nat.succ_pos n)
            simpa using this
          have hnil : ¬ pages start = [] := by
            intro hcon
            rw [hcon] at h0
            simp at h0
            omega
          have hnlt : ¬ (pages start).length < per_page := by omega
          unfold paginateGo
          simp only [hnil, if_false, hnlt]
          have hrec := ih (start + 1) f
            (fun i hi => by
              have := hfull (i + 1) (Nat.succ_lt_succ hi)
              rwa [show start + (i + 1) = start + 1 + i by omega] at this)
            (by rwa [show start + 1 + n = start + (n + 1) by omega])
            (by omega)
          rw [hrec]
          simp [List.range'_succ, concatPages]

/-- **C8.** For a repository whose listing has `N ≥ 1` pages — the first
`N - 1` full (page size 100) and page `N` the first empty-or-short page —
both paginated fetchers request exactly the pages `1, …, N` in increasing
order, stop at page `N`, and return the in-order concatenation of all
fetched pages (any fuel covering the `N` iterations gives the same
result, so the `while True` loop terminates there). -/
theorem paginated_fetch_correct (pages : Nat → List Issue) (N fuel : Nat)
    (hN : 1 ≤ N)
    (hfull : ∀ k, 1 ≤ k → k < N → (pages k).length = 100)
    (hshort : pages N = [] ∨ (pages N).length < 100)
    (hfuel : N ≤ fuel) :
    export_all_github_issues pages fuel = (concatPages pages 1 N, List.range' 1 N) ∧
    get_all_issues_paginated pages fuel = (concatPages pages 1 N, List.range' 1 N) := by
  obtain ⟨n, rfl⟩ : ∃ n, N = n + 1 := ⟨N - 1, by omega⟩
  have h := paginateGo_spec pages 100 (by omega) n 1 fuel
    (fun i hi => hfull (1 + i) (by omega) (by omega))
    (by rwa [show 1 + n = n + 1 by omega])
    (by omega)
  exact ⟨h, h⟩

/-- A placeholder issue for the pagination witness. -/
def dummyIssue : Issue where
  number := 1
  title := "t"
  labels := []
  body := ""
  htmlUrl := ""
  isPullRequest := false

/-- A three-page listing: pages 1 and 2 full, page 3 short, later pages
empty. -/
def witnessPages : Nat → List Issue := fun k =>
  if k ≤ 2 then List.replicate 100 dummyIssue
  else if k = 3 then [dummyIssue] else []

/-- Witness for C8: the three-page listing is fetched as pages `[1, 2, 3]`
and their concatenation. -/
theorem paginated_fetch_correct_witness :
    export_all_github_issues witnessPages 10 =
      (concatPages witnessPages 1 3, [1, 2, 3]) ∧
    get_all_issues_paginated witnessPages 10 =
      (concatPages witnessPages 1 3, [1, 2, 3]) :=
  paginated_fetch_correct witnessPages 3 10 (by decide)
    (fun k hk1 hk2 => by interval_cases k <;> decide)
    (Or.inr (by decide)) (by decide)

/-- **C9 counterexample.** The claim says a failed duplicate-search
request — non-200 response *or* request exception — makes the check
return false.  Neither `check_jira_for_github_issue` nor
`JiraClient.search_issues` wraps the request in `try`/`except`, so a
raised request exception propagates instead of yielding false. -/
theorem duplicate_check_exception_propagates :
    check_jira_for_github_issue (.error "ConnectionError") = .error "ConnectionError" ∧
    check_issue_exists (.error "ConnectionError") = .error "ConnectionError" ∧
    check_jira_for_github_issue (.error "ConnectionError") ≠ .ok false :=
  ⟨rfl, rfl, fun h => nomatch h⟩

/-- **C9 (amended).** On a non-200 search response both duplicate checks
return false — failing open, so the pipeline proceeds to create — while a
raised request exception is not caught and propagates out of the check
(aborting the record and, at the batch driver, the repository). -/
theorem duplicate_check_fails_open_on_non200 (r : JiraSearchResponse)
    (h : r.statusCode ≠ 200) :
    check_jira_for_github_issue (.ok r) = .ok false ∧
    check_issue_exists (.ok r) = .ok false ∧
    ∀ e : String, check_jira_for_github_issue (.error e) = .error e ∧
      check_issue_exists (.error e) = .error e := by
  refine ⟨?_, ?_, fun e => ⟨rfl, rfl⟩⟩
  · simp [check_jira_for_github_issue, h]
  · simp [check_issue_exists, searchIssues, h]

/-- Witness for the amended C9 at a concrete 500 search response. -/
theorem duplicate_check_fails_open_on_non200_witness :
    check_jira_for_github_issue (.ok ⟨500, 7⟩) = .ok false ∧
    check_issue_exists (.ok ⟨500, 7⟩) = .ok false ∧
    ∀ e : String, check_jira_for_github_issue (.error e) = .error e ∧
      check_issue_exists (.error e) = .error e :=
  duplicate_check_fails_open_on_non200 ⟨500, 7⟩ (by decide)

/-- A pull request is never counted: the loop body `continue`s before any
counter. -/
theorem processIssue_pr (env : JiraEnv) (repo : String)
    (mapping : List (String × String)) (issue : Issue)
    (h : issue.isPullRequest = true) :
    processIssue env repo mapping issue = .ok (.notCounted, []) := by
  simp [processIssue, h]

/-- A non-pull-request issue never yields the uncounted outcome. -/
theorem processIssue_not_pr_counted (env : JiraEnv) (repo : String)
    (mapping : List (String × String)) (issue : Issue)
    (hpr : issue.isPullRequest = false) (o : Outcome) (acts : List Action)
    (h : processIssue env repo mapping issue = .ok (o, acts)) :
    o ≠ .notCounted := by
  unfold processIssue at h
  rw [hpr] at h
  intro ho
  subst ho
  simp only [Bool.false_eq_true, if_false] at h
  split at h
  · simp at h
  · split at h
    · simp at h
    · split at h
      · simp at h
      · split at h
        · simp at h
        · split at h
          · simp at h
          · split at h
            · simp at h
            · simp at h

/-- Bulk variant of `processIssue_pr`. -/
theorem processBulkIssue_pr (env : JiraEnv) (repo : String) (issue : Issue)
    (h : issue.isPullRequest = true) :
    processBulkIssue env repo issue = .ok (.notCounted, []) := by
  simp [processBulkIssue, h]

/-- Bulk variant of `processIssue_not_pr_counted`. -/
theorem processBulkIssue_not_pr_counted (env : JiraEnv) (repo : String)
    (issue : Issue) (hpr : issue.isPullRequest = false)
    (o : Outcome) (acts : List Action)
    (h : processBulkIssue env repo issue = .ok (o, acts)) :
    o ≠ .notCounted := by
  unfold processBulkIssue at h
  rw [hpr] at h
  intro ho
  subst ho
  simp only [Bool.false_eq_true, if_false] at h
  split at h
  · simp at h
  · split at h
    · simp at h
    · split at h
      · simp at h
      · split at h
        · simp at h
        · split at h
          · simp at h
          · simp at h

/-- Counter bookkeeping of the bug importer loop: a successful run adds
exactly one counter increment per non-pull-request issue. -/
theorem importToJiraGo_counts (env : JiraEnv) (repo : String)
    (mapping : List (String × String)) :
    ∀ (issues : List Issue) (s f k s' f' k' : Nat),
      importToJiraGo env repo mapping issues s f k = .ok (s', f', k') →
      s' + f' + k' =
        s + f + k + (issues.filter (fun i => !i.isPullRequest)).length := by
  intro issues
  induction issues with
  | nil =>
      intro s f k s' f' k' h
      simp only [importToJiraGo, Except.ok.injEq, Prod.mk.injEq] at h
      obtain ⟨hs, hf, hk⟩ := h
      subst hs; subst hf; subst hk
      simp
  | cons i rest ih =>
      intro s f k s' f' k' h
      unfold importToJiraGo at h
      by_cases hpr : i.isPullRequest = true
      · rw [processIssue_pr env repo mapping i hpr] at h
        have hres := ih s f k s' f' k' h
        rw [hres]
        simp [List.filter_cons, hpr]
      · have hprf : i.isPullRequest = false := by simpa using hpr
        cases hpi : processIssue env repo mapping i with
        | error e => rw [hpi] at h; simp at h
        | ok pr =>
            obtain ⟨o, acts⟩ := pr
            rw [hpi] at h
            have hne := processIssue_not_pr_counted env repo mapping i hprf o acts hpi
            cases o with
            | notCounted => exact absurd rfl hne
            | created =>
                have hres := ih (s + 1) f k s' f' k' h
                rw [hres]; simp [List.filter_cons, hprf]; omega
            | failed =>
                have hres := ih s (f + 1) k s' f' k' h
                rw [hres]; simp [List.filter_cons, hprf]; omega
            | skippedNotBug =>
                have hres := ih s f (k + 1) s' f' k' h
                rw [hres]; simp [List.filter_cons, hprf]; omega
            | skippedHasLabels =>
                have hres := ih s f (k + 1) s' f' k' h
                rw [hres]; simp [List.filter_cons, hprf]; omega
            | skippedAlreadyImported =>
                have hres := ih s f (k + 1) s' f' k' h
                rw [hres]; simp [List.filter_cons, hprf]; omega
            | skippedExistsInJira =>
                have hres := ih s f (k + 1) s' f' k' h
                rw [hres]; simp [List.filter_cons, hprf]; omega
            | skippedNoTemplate =>
                have hres := ih s f (k + 1) s' f' k' h
                rw [hres]; simp [List.filter_cons, hprf]; omega

/-- Counter bookkeeping of the bulk importer loop. -/
theorem bulkImportToJiraGo_counts (env : JiraEnv) (repo : String) :
    ∀ (issues : List Issue) (s f k s' f' k' : Nat),
      bulkImportToJiraGo env repo issues s f k = .ok (s', f', k') →
      s' + f' + k' =
        s + f + k + (issues.filter (fun i => !i.isPullRequest)).length := by
  intro issues
  induction issues with
  | nil =>
      intro s f k s' f' k' h
      simp only [bulkImportToJiraGo, Except.ok.injEq, Prod.mk.injEq] at h
      obtain ⟨hs, hf, hk⟩ := h
      subst hs; subst hf; subst hk
      simp
  | cons i rest ih =>
      intro s f k s' f' k' h
      unfold bulkImportToJiraGo at h
      by_cases hpr : i.isPullRequest = true
      · rw [processBulkIssue_pr env repo i hpr] at h
        have hres := ih s f k s' f' k' h
        rw [hres]
        simp [List.filter_cons, hpr]
      · have hprf : i.isPullRequest = false := by simpa using hpr
        cases hpi : processBulkIssue env repo i with
        | error e => rw [hpi] at h; simp at h
        | ok pr =>
            obtain ⟨o, acts⟩ := pr
            rw [hpi] at h
            have hne := processBulkIssue_not_pr_counted env repo i hprf o acts hpi
            cases o with
            | notCounted => exact absurd rfl hne
            | created =>
                have hres := ih (s + 1) f k s' f' k' h
                rw [hres]; simp [List.filter_cons, hprf]; omega
            | failed =>
                have hres := ih s (f + 1) k s' f' k' h
                rw [hres]; simp [List.filter_cons, hprf]; omega
            | skippedNotBug =>
                have hres := ih s f (k + 1) s' f' k' h
                rw [hres]; simp [List.filter_cons, hprf]; omega
            | skippedHasLabels =>
                have hres := ih s f (k + 1) s' f' k' h
                rw [hres]; simp [List.filter_cons, hprf]; omega
            | skippedAlreadyImported =>
                have hres := ih s f (k + 1) s' f' k' h
                rw [hres]; simp [List.filter_cons, hprf]; omega
            | skippedExistsInJira =>
                have hres := ih s f (k + 1) s' f' k' h
                rw [hres]; simp [List.filter_cons, hprf]; omega
            | skippedNoTemplate =>
                have hres := ih s f (k + 1) s' f' k' h
                rw [hres]; simp [List.filter_cons, hprf]; omega

/-- **C10.** Over one import run that returns counters, every
non-pull-request issue increments exactly one of the three counters:
`successful + failed + skipped` equals the number of non-pull-request
issues, and pull-request-flagged issues are absent from all counts — in
both the bug importer and the bulk importer. -/
theorem counters_partition_non_pr (env : JiraEnv) (repo : String)
    (mapping : List (String × String)) (issues : List Issue) (s f k : Nat) :
    (import_to_jira env issues repo mapping = .ok (s, f, k) →
      s + f + k = (issues.filter (fun i => !i.isPullRequest)).length) ∧
    (bulk_import_to_jira env issues repo = .ok (s, f, k) →
      s + f + k = (issues.filter (fun i => !i.isPullRequest)).length) := by
  constructor
  · intro h
    have := importToJiraGo_counts env repo mapping issues 0 0 0 s f k h
    simpa using this
  · intro h
    have := bulkImportToJiraGo_counts env repo issues 0 0 0 s f k h
    simpa using this

/-- Witness for C10: a three-issue run (one PR, one skipped, one created)
yields counters `(1, 0, 1)` summing to the 2 non-PR issues, under both
importers. -/
theorem counters_partition_non_pr_witness :
    1 + 0 + 1 =
      (([samplePrIssue, sampleNoTemplateIssue, sampleTemplatedIssue].filter
        (fun i => !i.isPullRequest)).length) ∧
    import_to_jira envAllCreate
        [samplePrIssue, sampleNoTemplateIssue, sampleTemplatedIssue]
        "dedicated-host" REPO_TO_MASTER_COMPONENT = .ok (1, 0, 1) ∧
    bulk_import_to_jira envAllCreate
        [samplePrIssue, sampleNoTemplateIssue, sampleTemplatedIssue]
        "dedicated-host" = .ok (1, 0, 1) := by
  have h1 : import_to_jira envAllCreate
      [samplePrIssue, sampleNoTemplateIssue, sampleTemplatedIssue]
      "dedicated-host" REPO_TO_MASTER_COMPONENT = .ok (1, 0, 1) := by rfl
  have h2 : bulk_import_to_jira envAllCreate
      [samplePrIssue, sampleNoTemplateIssue, sampleTemplatedIssue]
      "dedicated-host" = .ok (1, 0, 1) := by rfl
  refine ⟨?_, h1, h2⟩
  exact (counters_partition_non_pr envAllCreate "dedicated-host"
    REPO_TO_MASTER_COMPONENT
    [samplePrIssue, sampleNoTemplateIssue, sampleTemplatedIssue] 1 0 1).1 h1

end Giji
